import Mathlib

/-!
Shallow embedding of the webhook order-relay bridge in `src/main.py`
(symbol normalization, the market-order submission/recovery engine, and
the `/webhook` handler `_handle_tv`), together with theorems settling the
specification claims about it.

Python strings are modelled as `List Char`; Python numbers as `ℚ`;
JSON payload values as the inductive `JValue`.  External effects (the
exchange client, the wall clock, `uuid`, and the sqlite audit log) are
modelled as oracle inputs, and the audit/API calls the handler performs
are returned as an explicit event trace.
-/

/-- Python strings, modelled as lists of characters. -/
abbrev Str := List Char

/-- `str.strip()`: drop leading and trailing whitespace. -/
def pyStrip (l : Str) : Str :=
  ((l.dropWhile Char.isWhitespace).reverse.dropWhile Char.isWhitespace).reverse

/-- `str.upper()` applied character-wise (basic-latin letters, as in `Char.toUpper`). -/
def pyUpper (l : Str) : Str :=
  l.map Char.toUpper

/-- `s.split(":")[-1]`: the segment after the last colon (the whole string when
there is no colon). -/
def afterLastColon (l : Str) : Str :=
  (l.reverse.takeWhile (fun c => c != ':')).reverse

/-- `ALLOWED_SYMBOLS = {"BTCUSDT", "ETHUSDT"}` (only membership is used). -/
def ALLOWED_SYMBOLS : List Str :=
  [("BTCUSDT".toList), ("ETHUSDT".toList)]

/-- `DEFAULT_QTY.get(symbol, 0.001)` with `DEFAULT_QTY = {"BTCUSDT": 0.001, "ETHUSDT": 0.02}`. -/
def DEFAULT_QTY (symbol : Str) : ℚ :=
  if symbol = ("BTCUSDT".toList) then 1/1000
  else if symbol = ("ETHUSDT".toList) then 2/100
  else 1/1000

/-- The `USD -> USDT` substitution step of `normalize_symbol` (`main.py` lines 124-127):
if the symbol is not allow-listed and ends in `"USD"`, substitute the ending with
`"USDT"` and keep the substitution only when the result is allow-listed. -/
def usdFix (s : Str) : Str :=
  if s ∉ ALLOWED_SYMBOLS ∧ ("USD".toList) <:+ s then
    if (s.take (s.length - 3) ++ ("USDT".toList)) ∈ ALLOWED_SYMBOLS then
      s.take (s.length - 3) ++ ("USDT".toList)
    else s
  else s

/-- `normalize_symbol` (`main.py` lines 112-128): empty string maps to itself;
otherwise strip, upper-case, take the segment after the last colon (stripping it),
remove every slash, then attempt the `USD -> USDT` substitution. -/
def normalize_symbol (raw_symbol : Str) : Str :=
  if raw_symbol = [] then []
  else
    let s0 := pyUpper (pyStrip raw_symbol)
    let s1 := if ':' ∈ s0 then pyStrip (afterLastColon s0) else s0
    usdFix (s1.filter (fun c => c != '/'))

/-- The exchange's order representation is treated as an uninterpreted payload. -/
abbrev OrderRep := Str

/-- The dictionary returned by `place_market_order_with_fallback`; keys absent in a
given return branch are `none`. -/
structure OrderResult where
  ok : Bool
  order : Option OrderRep := none
  error : Option Str := none
  client_id : Str
  note : Option Str := none
deriving DecidableEq

/-- One outbound call to the exchange client. -/
inductive ApiCall where
  | newOrder (symbol side otype : Str) (quantity : ℚ) (newClientOrderId : Str)
  | getOrder (symbol origClientOrderId : Str)
deriving DecidableEq

/-- `client_id = f"tv_{int(time.time()*1000)}_{uuid.uuid4().hex[:8]}"`, with the
clock reading and the random hex suffix supplied as oracle inputs. -/
def mk_client_id (now_ms : Nat) (uuid_hex8 : Str) : Str :=
  ("tv_".toList) ++ (toString now_ms).toList ++ ("_".toList) ++ uuid_hex8

/-- The ambiguous-response signature test (`main.py` line 152):
`"Invalid JSON error message" in msg or "404 Not found" in msg or "code=0" in msg`. -/
def isAmbiguousMsg (msg : Str) : Prop :=
  ("Invalid JSON error message".toList) <:+: msg ∨
  ("404 Not found".toList) <:+: msg ∨
  ("code=0".toList) <:+: msg

instance (msg : Str) : Decidable (isAmbiguousMsg msg) := by
  unfold isAmbiguousMsg; infer_instance

/-- `place_market_order_with_fallback` (`main.py` lines 130-159).  The outcomes of
`client.new_order` and (if reached) `client.get_order` are oracle inputs
(`Except.error` = the call raised, carrying the exception text).  Returns the
result dictionary together with the list of exchange calls made, in order. -/
def place_market_order_with_fallback
    (new_order_result get_order_result : Except Str OrderRep)
    (side symbol : Str) (qty : ℚ) (now_ms : Nat) (uuid_hex8 : Str) :
    OrderResult × List ApiCall :=
  let client_id := mk_client_id now_ms uuid_hex8
  let submit : ApiCall := .newOrder symbol side ("MARKET".toList) qty client_id
  match new_order_result with
  | .ok order =>
      ({ ok := true, order := some order, client_id := client_id, note := some [] },
       [submit])
  | .error msg =>
      if isAmbiguousMsg msg then
        match get_order_result with
        | .ok status =>
            ({ ok := true, order := some status, client_id := client_id,
               note := some ("Recovered after parse error".toList) },
             [submit, .getOrder symbol client_id])
        | .error e2 =>
            ({ ok := false, error := some (("Fallback lookup failed: ".toList) ++ e2),
               client_id := client_id },
             [submit, .getOrder symbol client_id])
      else
        ({ ok := false, error := some msg, client_id := client_id }, [submit])

/-- JSON-like payload values (what `request.get_json` hands the handler).
Container values (arrays / nested objects) are modelled by their element count:
the handler only ever observes a container through its truthiness (emptiness),
through `float()` (which rejects every container), and through `str()` (whose
text begins with a bracket and so can never equal `"BUY"`/`"SELL"`). -/
inductive JValue where
  | null
  | bool (b : Bool)
  | num (q : ℚ)
  | str (s : Str)
  | arr (n : Nat)
  | obj (n : Nat)
deriving DecidableEq

/-- A parsed JSON object: association list from field name to value
(JSON object keys are unique; the first binding wins). -/
abbrev Dict := List (Str × JValue)

/-- Key lookup in a parsed object (`key in data` / `data[key]`). -/
def dictGet (data : Dict) (key : Str) : Option JValue :=
  match data with
  | [] => none
  | (k, v) :: rest => if k = key then some v else dictGet rest key

/-- `data.get(key, default)`: the stored value when the key is present (even if
that value is JSON `null`, i.e. Python `None`), otherwise the default. -/
def dictGetD (data : Dict) (key : Str) (default : JValue) : JValue :=
  (dictGet data key).getD default

/-- Python truthiness of a JSON value (`None`, `False`, `0`, `""` and empty
containers are falsy). -/
def truthy : JValue → Bool
  | .null => false
  | .bool b => b
  | .num q => decide (q ≠ 0)
  | .str s => !s.isEmpty
  | .arr n => decide (n ≠ 0)
  | .obj n => decide (n ≠ 0)

/-- `x or 0` as used in the price extraction: the value itself when truthy, else `0`. -/
def orZero (v : JValue) : JValue :=
  if truthy v then v else .num 0

/-- Digit run to a natural number. -/
def digitsToNat (l : Str) : Nat :=
  l.foldl (fun n c => n * 10 + (c.toNat - 48)) 0

/-- The decimal-literal fragment of Python `float(str)`: optional surrounding
whitespace, optional sign, digits with at most one decimal point, at least one
digit.  (Exponents, `inf`/`nan` and underscores are not modelled; no claim
depends on them.) -/
def parseDecimal (s : Str) : Option ℚ :=
  let t := pyStrip s
  let signed : ℚ × Str :=
    match t with
    | c :: rest => if c = '-' then (-1, rest) else if c = '+' then (1, rest) else (1, t)
    | [] => (1, t)
  let u := signed.2
  let ip := u.takeWhile Char.isDigit
  let rest := u.dropWhile Char.isDigit
  match rest with
  | [] => if ip = [] then none else some (signed.1 * (digitsToNat ip : ℚ))
  | c :: fp =>
      if c = '.' ∧ fp.all Char.isDigit ∧ ¬(ip = [] ∧ fp = []) then
        some (signed.1 * ((digitsToNat ip : ℚ) + (digitsToNat fp : ℚ) / ((10 : ℚ) ^ fp.length)))
      else none

/-- Python `float(x)` on a JSON value; `Except.error` carries the exception text. -/
def pyFloat : JValue → Except Str ℚ
  | .num q => .ok q
  | .bool b => .ok (if b then 1 else 0)
  | .str s =>
      match parseDecimal s with
      | some q => .ok q
      | none => .error (("could not convert string to float: \x27".toList) ++ s ++ ("\x27".toList))
  | .null => .error ("float() argument must be a string or a real number, not \x27NoneType\x27".toList)
  | .arr _ => .error ("float() argument must be a string or a real number, not \x27list\x27".toList)
  | .obj _ => .error ("float() argument must be a string or a real number, not \x27dict\x27".toList)

/-- Rendering of an integer as characters. -/
def intChars (i : Int) : Str := (toString i).toList

/-- Python `str()` of a number.  Integral values render as integers; other
rationals are rendered as `num/den` (an abridged stand-in for Python float
rendering — every claim that meets it only needs that the result is not
`"BUY"`/`"SELL"`, which holds since it starts with a digit or a sign). -/
def pyStrNum (q : ℚ) : Str :=
  if q.den = 1 then intChars q.num
  else intChars q.num ++ ("/".toList) ++ (toString q.den).toList

/-- Python `str()` of a JSON value.  Containers render abridged (they begin with
a bracket, so they can never equal `"BUY"`/`"SELL"`; no claim inspects their text). -/
def pyStr : JValue → Str
  | .null => ("None".toList)
  | .bool true => ("True".toList)
  | .bool false => ("False".toList)
  | .num q => pyStrNum q
  | .str s => s
  | .arr _ => ("[...]".toList)
  | .obj _ => ("\x7b...\x7d".toList)

/-- The upper-cased action string: `str(data.get("action", "")).upper()`. -/
def actionValue (data : Dict) : Str :=
  pyUpper (pyStr (dictGetD data ("action".toList) (.str [])))

/-- The raw symbol string: `str(data.get("symbol", ""))`. -/
def rawSymbolValue (data : Dict) : Str :=
  pyStr (dictGetD data ("symbol".toList) (.str []))

/-- The quantity value handed to `float(...)`:
`qty = data.get("qty", data.get("quantity")); if qty is None: qty = DEFAULT_QTY.get(symbol, 0.001)`.
A field stored as JSON `null` is Python `None` and is replaced by the default,
exactly as an absent field is. -/
def qtyValue (data : Dict) (symbol : Str) : JValue :=
  let qv0 : JValue :=
    match dictGet data ("qty".toList) with
    | some v => v
    | none => (dictGet data ("quantity".toList)).getD .null
  if qv0 = JValue.null then .num (DEFAULT_QTY symbol) else qv0

/-- One row inserted into the `trades` table by `log_trade`. -/
structure TradeRow where
  action : Str
  symbol : Str
  qty : ℚ
  entry_price : ℚ
  sl_price : ℚ
  tp_price : ℚ
  status : Str
  error : Str
  client_id : Str
  note : Str
deriving DecidableEq

/-- An observable side effect of one handler run, in order of occurrence. -/
inductive Event where
  | api (c : ApiCall)
  | trade (row : TradeRow)
  | hit (status_code : Nat)
deriving DecidableEq

/-- The JSON body of the handler's HTTP response. -/
inductive Resp where
  | okNote (note : Str)
  | success (client_id : Str) (order : Option OrderRep)
  | errMsg (msg : Str)
deriving DecidableEq

/-- Oracle inputs for one handler run: the exchange call outcomes, the clock and
uuid draws, and whether each audit-log write raises (`some e` = the sqlite call
raises an exception with text `e`). -/
structure Oracles where
  new_order_result : Except Str OrderRep
  get_order_result : Except Str OrderRep
  now_ms : Nat
  uuid_hex8 : Str
  log_trade_outcome : Option Str
  log_hit_outcome : Option Str
  except_log_hit_outcome : Option Str

/-- Result of one handler run: the HTTP response (`Except.error` = an exception
escaped `_handle_tv` entirely, which can only happen when the except-branch
`log_webhook_hit` itself raises) and the event trace. -/
structure HandlerResult where
  response : Except Str (Nat × Resp)
  events : List Event

/-- The `except` branch of `_handle_tv` (`main.py` lines 302-315): write a
webhook-hit row with status 400, then answer 400 with the exception text. -/
def exceptPath (o : Oracles) (e : Str) (evs : List Event) : HandlerResult :=
  match o.except_log_hit_outcome with
  | none => ⟨.ok (400, .errMsg e), evs ++ [.hit 400]⟩
  | some e2 => ⟨.error e2, evs ++ [.hit 400]⟩

/-- A normal return from `_handle_tv`: `log_webhook_hit(..., status)` followed by
the JSON response; if the log write raises, control passes to the except branch. -/
def finishHit (o : Oracles) (status : Nat) (body : Resp) (evs : List Event) : HandlerResult :=
  match o.log_hit_outcome with
  | none => ⟨.ok (status, body), evs ++ [.hit status]⟩
  | some e => exceptPath o e (evs ++ [.hit status])

/-- The tail of the handler's actionable path (`main.py` lines 278-300), entered
once action, symbol, quantity and the optional prices have all been extracted:
place the order, append the trade row, log the webhook hit and respond. -/
def placeAndLog (data : Dict) (o : Oracles) (q entry_price sl_price tp_price : ℚ) :
    HandlerResult :=
  let action := actionValue data
  let symbol := normalize_symbol (rawSymbolValue data)
  let pr := place_market_order_with_fallback o.new_order_result
    o.get_order_result action symbol q o.now_ms o.uuid_hex8
  let res := pr.1
  let row : TradeRow :=
    { action := action, symbol := symbol, qty := q,
      entry_price := entry_price, sl_price := sl_price, tp_price := tp_price,
      status := if res.ok then ("success".toList) else ("error".toList),
      error := if res.ok then [] else (res.error.getD []),
      client_id := res.client_id,
      note := res.note.getD [] }
  let evs := pr.2.map Event.api ++ [.trade row]
  match o.log_trade_outcome with
  | some e => exceptPath o e evs
  | none =>
    if res.ok then
      finishHit o 200 (.success res.client_id res.order) evs
    else
      finishHit o 502 (.errMsg (res.error.getD ("Unknown error".toList))) evs

/-- `_handle_tv` (`main.py` lines 207-315), from the tolerantly-parsed payload
`data` onward (the tolerant parse of a non-JSON body yields the empty dict).
Mirrors the source branch by branch; headers/raw body and `app.logger` calls
carry no behavioural content and are omitted from the state. -/
def handle_tv (data : Dict) (o : Oracles) : HandlerResult :=
  if data.isEmpty then
    finishHit o 200 (.okNote ("non-json or empty; ignored".toList)) []
  else
    if dictGet data ("ping".toList) = some (JValue.bool true) then
      finishHit o 200 (.okNote ("pong".toList)) []
    else
      if (dictGet data ("debug".toList)).isSome then
        finishHit o 200 (.okNote ("debug received".toList)) []
      else
        let action := actionValue data
        let raw_symbol := rawSymbolValue data
        let symbol := normalize_symbol raw_symbol
        if action ≠ ("BUY".toList) ∧ action ≠ ("SELL".toList) then
          finishHit o 200 (.okNote ("ignored (no BUY/SELL)".toList)) []
        else if symbol ∉ ALLOWED_SYMBOLS then
          finishHit o 400 (.errMsg (("Unsupported symbol \x27".toList) ++ raw_symbol ++
            ("\x27 after normalization -> \x27".toList) ++ symbol ++ ("\x27".toList))) []
        else
          match pyFloat (qtyValue data symbol) with
          | .error _ => finishHit o 400 (.errMsg ("Invalid qty".toList)) []
          | .ok q =>
            if q ≤ 0 then
              finishHit o 400 (.errMsg ("Invalid qty".toList)) []
            else
              match pyFloat (orZero (dictGetD data ("entry_price".toList) (.num 0))) with
              | .error e => exceptPath o e []
              | .ok entry_price =>
              match pyFloat (orZero (dictGetD data ("sl_price".toList) (.num 0))) with
              | .error e => exceptPath o e []
              | .ok sl_price =>
              match pyFloat (orZero (dictGetD data ("tp_price".toList) (.num 0))) with
              | .error e => exceptPath o e []
              | .ok tp_price => placeAndLog data o q entry_price sl_price tp_price

/-- Does an `ApiCall` submit an order (`client.new_order`)? -/
def isNewOrderCall : ApiCall → Bool
  | .newOrder _ _ _ _ _ => true
  | .getOrder _ _ => false

/-- Does an `ApiCall` look an order up (`client.get_order`)? -/
def isGetOrderCall : ApiCall → Bool
  | .newOrder _ _ _ _ _ => false
  | .getOrder _ _ => true

/-- Number of order submissions in a call list. -/
def countNewOrder (l : List ApiCall) : Nat := (l.filter isNewOrderCall).length

/-- Number of order lookups in a call list. -/
def countGetOrder (l : List ApiCall) : Nat := (l.filter isGetOrderCall).length

/-- Is a handler event an exchange order submission? -/
def isEngineSubmit : Event → Bool
  | .api c => isNewOrderCall c
  | _ => false

/-- Is a handler event a `log_trade` call? -/
def isTradeEvent : Event → Bool
  | .trade _ => true
  | _ => false

/-- Number of order submissions in a handler trace (the engine submits exactly
once per invocation, so this counts engine invocations). -/
def countSubmits (evs : List Event) : Nat := (evs.filter isEngineSubmit).length

/-- Number of `log_trade` calls in a handler trace. -/
def countTrades (evs : List Event) : Nat := (evs.filter isTradeEvent).length

/-- Whether the engine run is a success, as a function of the two exchange-call
outcomes alone (mirrors the branch structure of `place_market_order_with_fallback`). -/
def engineOk (new_order_result get_order_result : Except Str OrderRep) : Bool :=
  match new_order_result with
  | .ok _ => true
  | .error msg =>
      if isAmbiguousMsg msg then
        match get_order_result with
        | .ok _ => true
        | .error _ => false
      else false

/-- A concrete oracle bundle used by witnesses and counterexamples: both
exchange calls succeed and every audit-log write succeeds. -/
def oracleAllOk : Oracles :=
  { new_order_result := .ok ("FILLED".toList), get_order_result := .ok ("LOOKED".toList),
    now_ms := 5, uuid_hex8 := ("deadbeef".toList),
    log_trade_outcome := none, log_hit_outcome := none, except_log_hit_outcome := none }

/-!  ## Helper lemmas about the Order Placement Engine  -/

/-- The engine's result always carries the generated correlation id. -/
theorem engine_client_id (no go : Except Str OrderRep) (side symbol : Str)
    (qty : ℚ) (now_ms : Nat) (u8 : Str) :
    (place_market_order_with_fallback no go side symbol qty now_ms u8).1.client_id
      = mk_client_id now_ms u8 := by
  cases no with
  | ok v => rfl
  | error msg =>
      by_cases h : isAmbiguousMsg msg
      · cases go <;> simp [place_market_order_with_fallback, h]
      · simp [place_market_order_with_fallback, h]

/-- The engine's success flag equals `engineOk` of the two call outcomes. -/
theorem engine_ok (no go : Except Str OrderRep) (side symbol : Str)
    (qty : ℚ) (now_ms : Nat) (u8 : Str) :
    (place_market_order_with_fallback no go side symbol qty now_ms u8).1.ok
      = engineOk no go := by
  cases no with
  | ok v => rfl
  | error msg =>
      by_cases h : isAmbiguousMsg msg
      · cases go <;> simp [place_market_order_with_fallback, engineOk, h]
      · simp [place_market_order_with_fallback, engineOk, h]

/-- The engine submits exactly one order per invocation. -/
theorem engine_submits_once (no go : Except Str OrderRep) (side symbol : Str)
    (qty : ℚ) (now_ms : Nat) (u8 : Str) :
    countNewOrder (place_market_order_with_fallback no go side symbol qty now_ms u8).2 = 1 := by
  cases no with
  | ok v => rfl
  | error msg =>
      by_cases h : isAmbiguousMsg msg
      · cases go <;>
          simp [place_market_order_with_fallback, h, countNewOrder, isNewOrderCall, List.filter]
      · simp [place_market_order_with_fallback, h, countNewOrder, isNewOrderCall, List.filter]

/-- The engine looks an order up at most once per invocation. -/
theorem engine_lookups_le_one (no go : Except Str OrderRep) (side symbol : Str)
    (qty : ℚ) (now_ms : Nat) (u8 : Str) :
    countGetOrder (place_market_order_with_fallback no go side symbol qty now_ms u8).2 ≤ 1 := by
  cases no with
  | ok v =>
      simp [place_market_order_with_fallback, countGetOrder, isGetOrderCall, List.filter]
  | error msg =>
      by_cases h : isAmbiguousMsg msg
      · cases go <;>
          simp [place_market_order_with_fallback, h, countGetOrder, isGetOrderCall, List.filter]
      · simp [place_market_order_with_fallback, h, countGetOrder, isGetOrderCall, List.filter]

/-!  ## Claims C1, C2, C3: the submission / recovery protocol  -/

/-- C1: if the exchange submission raises an error matching an ambiguous-response
signature and the lookup by the generated correlation id succeeds, the returned
`OrderResult` has `ok = true`, carries the looked-up order representation, and has
`note = "Recovered after parse error"`. -/
theorem c1_ambiguous_then_lookup_ok
    (msg : Str) (rep : OrderRep) (side symbol : Str) (qty : ℚ) (now_ms : Nat) (u8 : Str)
    (h : isAmbiguousMsg msg) :
    (place_market_order_with_fallback (.error msg) (.ok rep) side symbol qty now_ms u8).1.ok
        = true ∧
    (place_market_order_with_fallback (.error msg) (.ok rep) side symbol qty now_ms u8).1.order
        = some rep ∧
    (place_market_order_with_fallback (.error msg) (.ok rep) side symbol qty now_ms u8).1.note
        = some ("Recovered after parse error".toList) := by
  refine ⟨?_, ?_, ?_⟩ <;> simp [place_market_order_with_fallback, h]

/-- Witness for C1 at a concrete ambiguous error message and lookup result. -/
theorem c1_witness :
    (place_market_order_with_fallback (.error ("404 Not found".toList)) (.ok ("X".toList))
        ("BUY".toList) ("BTCUSDT".toList) 1 0 ("deadbeef".toList)).1.ok = true ∧
    (place_market_order_with_fallback (.error ("404 Not found".toList)) (.ok ("X".toList))
        ("BUY".toList) ("BTCUSDT".toList) 1 0 ("deadbeef".toList)).1.order
        = some ("X".toList) ∧
    (place_market_order_with_fallback (.error ("404 Not found".toList)) (.ok ("X".toList))
        ("BUY".toList) ("BTCUSDT".toList) 1 0 ("deadbeef".toList)).1.note
        = some ("Recovered after parse error".toList) :=
  c1_ambiguous_then_lookup_ok ("404 Not found".toList) ("X".toList)
    ("BUY".toList) ("BTCUSDT".toList) 1 0 ("deadbeef".toList)
    (Or.inr (Or.inl ⟨[], [], by decide⟩))

/-- C2 as stated is false: when the recovery lookup raises, the error text is
`"Fallback lookup failed: <cause>"`, which need not contain the correlation id.
At this concrete input the correlation id `tv_0_deadbeef` is not a substring of
the error text (the id is preserved only in the separate `client_id` field). -/
theorem c2_counterexample :
    (place_market_order_with_fallback (.error ("404 Not found".toList))
        (.error ("timeout".toList)) ("BUY".toList) ("BTCUSDT".toList)
        1 0 ("deadbeef".toList)).1.ok = false ∧
    (place_market_order_with_fallback (.error ("404 Not found".toList))
        (.error ("timeout".toList)) ("BUY".toList) ("BTCUSDT".toList)
        1 0 ("deadbeef".toList)).1.error
      = some ("Fallback lookup failed: timeout".toList) ∧
    (place_market_order_with_fallback (.error ("404 Not found".toList))
        (.error ("timeout".toList)) ("BUY".toList) ("BTCUSDT".toList)
        1 0 ("deadbeef".toList)).1.client_id = mk_client_id 0 ("deadbeef".toList) ∧
    ¬ (mk_client_id 0 ("deadbeef".toList)) <:+: ("Fallback lookup failed: timeout".toList) :=
  ⟨by decide, by decide, by decide, by decide⟩

/-- C2 (amended): if the submission raises an ambiguous-response error and the
recovery lookup also raises, the result has `ok = false`, its error text contains
the `"Fallback lookup failed"` marker, and the correlation id is preserved in the
result's `client_id` field (the error text itself need not contain the id). -/
theorem c2_fallback_lookup_failed
    (msg e2 : Str) (side symbol : Str) (qty : ℚ) (now_ms : Nat) (u8 : Str)
    (h : isAmbiguousMsg msg) :
    (place_market_order_with_fallback (.error msg) (.error e2) side symbol qty now_ms u8).1.ok
        = false ∧
    ("Fallback lookup failed".toList) <:+:
      ((place_market_order_with_fallback (.error msg) (.error e2) side symbol qty
          now_ms u8).1.error.getD []) ∧
    (place_market_order_with_fallback (.error msg) (.error e2) side symbol qty now_ms u8).1.client_id
        = mk_client_id now_ms u8 := by
  have herr : (place_market_order_with_fallback (.error msg) (.error e2) side symbol qty
      now_ms u8).1.error = some (("Fallback lookup failed: ".toList) ++ e2) := by
    simp [place_market_order_with_fallback, h]
  refine ⟨by simp [place_market_order_with_fallback, h], ?_,
    by simp [place_market_order_with_fallback, h, mk_client_id]⟩
  rw [herr]
  refine ⟨[], (": ".toList) ++ e2, ?_⟩
  rw [List.nil_append, ← List.append_assoc]
  rfl

/-- Witness for C2's amended theorem at a concrete input. -/
theorem c2_witness :
    (place_market_order_with_fallback (.error ("code=0".toList)) (.error ("timeout".toList))
        ("SELL".toList) ("ETHUSDT".toList) 2 7 ("cafe0123".toList)).1.ok = false ∧
    ("Fallback lookup failed".toList) <:+:
      ((place_market_order_with_fallback (.error ("code=0".toList)) (.error ("timeout".toList))
          ("SELL".toList) ("ETHUSDT".toList) 2 7 ("cafe0123".toList)).1.error.getD []) ∧
    (place_market_order_with_fallback (.error ("code=0".toList)) (.error ("timeout".toList))
        ("SELL".toList) ("ETHUSDT".toList) 2 7 ("cafe0123".toList)).1.client_id
      = mk_client_id 7 ("cafe0123".toList) :=
  c2_fallback_lookup_failed ("code=0".toList) ("timeout".toList)
    ("SELL".toList) ("ETHUSDT".toList) 2 7 ("cafe0123".toList)
    (Or.inr (Or.inr ⟨[], [], by decide⟩))

/-- C3: the engine submits exactly one market order per call (never retried),
looks the order up at most once and only when the submission raised an
ambiguous-response error, and returns any other submission error directly as a
failure with the original error text, performing no lookup. -/
theorem c3_engine_call_discipline
    (no go : Except Str OrderRep) (side symbol : Str) (qty : ℚ) (now_ms : Nat) (u8 : Str) :
    countNewOrder (place_market_order_with_fallback no go side symbol qty now_ms u8).2 = 1 ∧
    countGetOrder (place_market_order_with_fallback no go side symbol qty now_ms u8).2 ≤ 1 ∧
    (∀ msg, no = .error msg → ¬ isAmbiguousMsg msg →
      (place_market_order_with_fallback no go side symbol qty now_ms u8).1
        = { ok := false, error := some msg, client_id := mk_client_id now_ms u8 } ∧
      countGetOrder (place_market_order_with_fallback no go side symbol qty now_ms u8).2 = 0) ∧
    (countGetOrder (place_market_order_with_fallback no go side symbol qty now_ms u8).2 = 1 →
      ∃ msg, no = .error msg ∧ isAmbiguousMsg msg) := by
  refine ⟨engine_submits_once no go side symbol qty now_ms u8,
          engine_lookups_le_one no go side symbol qty now_ms u8, ?_, ?_⟩
  · intro msg hmsg hnamb
    subst hmsg
    constructor
    · simp [place_market_order_with_fallback, hnamb]
    · simp [place_market_order_with_fallback, hnamb, countGetOrder, isGetOrderCall, List.filter]
  · intro hcount
    cases no with
    | ok v =>
        exfalso
        simp [place_market_order_with_fallback, countGetOrder, isGetOrderCall,
          List.filter] at hcount
    | error msg =>
        by_cases h : isAmbiguousMsg msg
        · exact ⟨msg, rfl, h⟩
        · exfalso
          simp [place_market_order_with_fallback, h, countGetOrder, isGetOrderCall,
            List.filter] at hcount

/-- Witness for C3: the call-count discipline at a concrete non-ambiguous failure. -/
theorem c3_witness :
    countNewOrder (place_market_order_with_fallback
        (.error ("Account has insufficient balance".toList))
        (.ok ("X".toList)) ("BUY".toList) ("BTCUSDT".toList) 1 3 ("0a1b2c3d".toList)).2 = 1 ∧
    countGetOrder (place_market_order_with_fallback
        (.error ("Account has insufficient balance".toList))
        (.ok ("X".toList)) ("BUY".toList) ("BTCUSDT".toList) 1 3 ("0a1b2c3d".toList)).2 ≤ 1 ∧
    (∀ msg, (Except.error ("Account has insufficient balance".toList) : Except Str OrderRep)
        = .error msg → ¬ isAmbiguousMsg msg →
      (place_market_order_with_fallback (.error ("Account has insufficient balance".toList))
          (.ok ("X".toList)) ("BUY".toList) ("BTCUSDT".toList) 1 3 ("0a1b2c3d".toList)).1
        = { ok := false, error := some msg, client_id := mk_client_id 3 ("0a1b2c3d".toList) } ∧
      countGetOrder (place_market_order_with_fallback
          (.error ("Account has insufficient balance".toList))
          (.ok ("X".toList)) ("BUY".toList) ("BTCUSDT".toList) 1 3 ("0a1b2c3d".toList)).2 = 0) ∧
    (countGetOrder (place_market_order_with_fallback
        (.error ("Account has insufficient balance".toList))
        (.ok ("X".toList)) ("BUY".toList) ("BTCUSDT".toList) 1 3 ("0a1b2c3d".toList)).2 = 1 →
      ∃ msg, (Except.error ("Account has insufficient balance".toList) : Except Str OrderRep)
        = .error msg ∧ isAmbiguousMsg msg) :=
  c3_engine_call_discipline (.error ("Account has insufficient balance".toList))
    (.ok ("X".toList)) ("BUY".toList) ("BTCUSDT".toList) 1 3 ("0a1b2c3d".toList)

/-!  ## Helper lemmas about the Symbol Normalizer  -/

/-- `Char.ofNat` of a valid codepoint decodes back to the same codepoint. -/
theorem toNat_ofNat_of_valid {n : Nat} (h : n.isValidChar) : (Char.ofNat n).toNat = n := by
  rw [Char.ofNat, dif_pos h]; rfl

/-- Upper-casing a character twice is the same as upper-casing it once. -/
theorem toUpper_toUpper (c : Char) : c.toUpper.toUpper = c.toUpper := by
  unfold Char.toUpper
  by_cases h : c.toNat ≥ 97 ∧ c.toNat ≤ 122
  · rw [if_pos h]
    have hv : (c.toNat - 32).isValidChar := Or.inl (by omega)
    rw [if_neg (by rw [toNat_ofNat_of_valid hv]; omega)]
  · rw [if_neg h, if_neg h]

/-- Membership passes through `pyStrip`. -/
theorem mem_of_mem_pyStrip {c : Char} {l : Str} (h : c ∈ pyStrip l) : c ∈ l := by
  unfold pyStrip at h
  rw [List.mem_reverse] at h
  have h1 := (List.dropWhile_sublist (l := (l.dropWhile Char.isWhitespace).reverse)
    Char.isWhitespace).mem h
  rw [List.mem_reverse] at h1
  exact (List.dropWhile_sublist Char.isWhitespace).mem h1

/-- Membership passes through `afterLastColon`. -/
theorem mem_of_mem_afterLastColon {c : Char} {l : Str} (h : c ∈ afterLastColon l) : c ∈ l := by
  unfold afterLastColon at h
  rw [List.mem_reverse] at h
  have h1 := (List.takeWhile_sublist (l := l.reverse) (fun c => c != ':')).mem h
  rwa [List.mem_reverse] at h1

/-- No character of `afterLastColon l` is a colon. -/
theorem ne_colon_of_mem_afterLastColon {c : Char} {l : Str} (h : c ∈ afterLastColon l) :
    c ≠ ':' := by
  unfold afterLastColon at h
  rw [List.mem_reverse] at h
  have := List.mem_takeWhile_imp h
  simpa using this

/-- Every character of `usdFix s` comes from `s` or from the literal `"USDT"`. -/
theorem mem_usdFix {c : Char} {s : Str} (h : c ∈ usdFix s) :
    c ∈ s ∨ c ∈ ("USDT".toList) := by
  unfold usdFix at h
  split at h
  · split at h
    · rcases List.mem_append.1 h with h | h
      · exact Or.inl ((List.take_sublist _ _).mem h)
      · exact Or.inr h
    · exact Or.inl h
  · exact Or.inl h

/-- Every character of a normalized symbol is fixed by upper-casing and is
neither a colon nor a slash. -/
theorem normalize_symbol_char_facts {c : Char} {s : Str} (h : c ∈ normalize_symbol s) :
    c.toUpper = c ∧ c ≠ ':' ∧ c ≠ '/' := by
  rw [normalize_symbol] at h
  split at h
  · simp at h
  · rcases mem_usdFix h with h | husdt
    · rw [List.mem_filter] at h
      obtain ⟨hmem, hslash⟩ := h
      have hslash' : c ≠ '/' := by simpa using hslash
      by_cases hc : ':' ∈ pyUpper (pyStrip s)
      · rw [if_pos hc] at hmem
        have h1 := mem_of_mem_pyStrip hmem
        have hcol := ne_colon_of_mem_afterLastColon h1
        have h2 := mem_of_mem_afterLastColon h1
        rcases List.mem_map.1 h2 with ⟨a, _, rfl⟩
        exact ⟨toUpper_toUpper a, hcol, hslash'⟩
      · rw [if_neg hc] at hmem
        have hcol : c ≠ ':' := fun hceq => hc (hceq ▸ hmem)
        rcases List.mem_map.1 hmem with ⟨a, _, rfl⟩
        exact ⟨toUpper_toUpper a, hcol, hslash'⟩
    · fin_cases husdt <;> refine ⟨by decide, by decide, by decide⟩

/-- A map that fixes every member of a list fixes the list. -/
theorem map_id_of_mem_fixed {l : Str} {f : Char → Char} (h : ∀ c ∈ l, f c = c) :
    l.map f = l := by
  induction l with
  | nil => rfl
  | cons x xs ih =>
      rw [List.map_cons, h x (List.mem_cons_self x xs),
        ih (fun c hc => h c (List.mem_cons_of_mem x hc))]

/-- Upper-casing a normalized symbol leaves it unchanged. -/
theorem pyUpper_normalize_symbol (s : Str) :
    pyUpper (normalize_symbol s) = normalize_symbol s := by
  unfold pyUpper
  exact map_id_of_mem_fixed (fun c hc => (normalize_symbol_char_facts hc).1)

/-- A normalized symbol contains no colon. -/
theorem colon_not_mem_normalize_symbol (s : Str) : ':' ∉ normalize_symbol s := by
  intro h
  exact (normalize_symbol_char_facts h).2.1 rfl

/-- A normalized symbol contains no slash. -/
theorem slash_not_mem_normalize_symbol (s : Str) : '/' ∉ normalize_symbol s := by
  intro h
  exact (normalize_symbol_char_facts h).2.2 rfl

/-- The `USD -> USDT` substitution step is idempotent. -/
theorem usdFix_usdFix (s : Str) : usdFix (usdFix s) = usdFix s := by
  by_cases h : s ∉ ALLOWED_SYMBOLS ∧ ("USD".toList) <:+ s
  · by_cases hm : (s.take (s.length - 3) ++ ("USDT".toList)) ∈ ALLOWED_SYMBOLS
    · have hs : usdFix s = s.take (s.length - 3) ++ ("USDT".toList) := by
        unfold usdFix; rw [if_pos h, if_pos hm]
      rw [hs]
      unfold usdFix
      rw [if_neg (fun hc => hc.1 hm)]
    · have hs : usdFix s = s := by
        unfold usdFix; rw [if_pos h, if_neg hm]
      rw [hs]; exact hs
  · have hs : usdFix s = s := by
      unfold usdFix; rw [if_neg h]
    rw [hs]; exact hs

/-- `usdFix` fixes every normalized symbol. -/
theorem usdFix_normalize_symbol (s : Str) :
    usdFix (normalize_symbol s) = normalize_symbol s := by
  rw [normalize_symbol]
  split
  · decide
  · exact usdFix_usdFix _

/-- Evaluation of `normalize_symbol` on a non-empty input. -/
theorem normalize_symbol_eval (t : Str) (h0 : ¬ t = []) :
    normalize_symbol t =
      usdFix ((if ':' ∈ pyUpper (pyStrip t) then pyStrip (afterLastColon (pyUpper (pyStrip t)))
               else pyUpper (pyStrip t)).filter (fun c => c != '/')) := by
  unfold normalize_symbol
  rw [if_neg h0]

/-!  ## Claim C10: idempotence of the symbol normalizer  -/

/-- C10 as stated is false: removing the slash from `"/ A"` exposes a leading
space that only a second pass strips, so `normalize_symbol` is not idempotent
on every raw string (`normalize_symbol "/ A" = " A"` but applying it again
gives `"A"`). -/
theorem c10_counterexample :
    normalize_symbol (normalize_symbol ("/ A".toList)) ≠ normalize_symbol ("/ A".toList) := by
  decide

/-- C10 (amended): the normalizer is idempotent on every raw symbol whose
normalization carries no leading or trailing whitespace — equivalently, whenever
deleting the slashes does not expose surrounding whitespace, which the concrete
counterexample shows is the one way idempotence can fail. -/
theorem c10_normalize_idem_of_stripped (s : Str)
    (h : pyStrip (normalize_symbol s) = normalize_symbol s) :
    normalize_symbol (normalize_symbol s) = normalize_symbol s := by
  by_cases h0 : normalize_symbol s = []
  · rw [h0]
    rfl
  · rw [normalize_symbol_eval (normalize_symbol s) h0]
    rw [h, pyUpper_normalize_symbol]
    rw [if_neg (colon_not_mem_normalize_symbol s)]
    rw [List.filter_eq_self.mpr
      (fun a ha => by simpa using (normalize_symbol_char_facts ha).2.2)]
    exact usdFix_normalize_symbol s

/-- Witness for C10's amended theorem at a concrete input. -/
theorem c10_witness :
    pyStrip (normalize_symbol ("BINANCE:BTCUSDT".toList))
      = normalize_symbol ("BINANCE:BTCUSDT".toList) ∧
    normalize_symbol (normalize_symbol ("BINANCE:BTCUSDT".toList))
      = normalize_symbol ("BINANCE:BTCUSDT".toList) :=
  ⟨by decide, c10_normalize_idem_of_stripped ("BINANCE:BTCUSDT".toList) (by decide)⟩

/-!  ## Helper lemmas about the webhook handler  -/

/-- Trade-call count distributes over trace concatenation. -/
theorem countTrades_append (a b : List Event) :
    countTrades (a ++ b) = countTrades a + countTrades b := by
  unfold countTrades
  rw [List.filter_append, List.length_append]

/-- Submission count distributes over trace concatenation. -/
theorem countSubmits_append (a b : List Event) :
    countSubmits (a ++ b) = countSubmits a + countSubmits b := by
  unfold countSubmits
  rw [List.filter_append, List.length_append]

/-- The except branch adds only a webhook-hit record to the trace. -/
theorem countTrades_exceptPath (o : Oracles) (e : Str) (evs : List Event) :
    countTrades (exceptPath o e evs).events = countTrades evs := by
  unfold exceptPath
  cases o.except_log_hit_outcome <;>
    simp [countTrades_append, countTrades, isTradeEvent, List.filter]

/-- The except branch performs no exchange call. -/
theorem countSubmits_exceptPath (o : Oracles) (e : Str) (evs : List Event) :
    countSubmits (exceptPath o e evs).events = countSubmits evs := by
  unfold exceptPath
  cases o.except_log_hit_outcome <;>
    simp [countSubmits_append, countSubmits, isEngineSubmit, List.filter]

/-- A normal return adds only webhook-hit records to the trace. -/
theorem countTrades_finishHit (o : Oracles) (sc : Nat) (b : Resp) (evs : List Event) :
    countTrades (finishHit o sc b evs).events = countTrades evs := by
  unfold finishHit
  cases h : o.log_hit_outcome with
  | none => simp [countTrades_append, countTrades, isTradeEvent, List.filter]
  | some e =>
      rw [countTrades_exceptPath]
      simp [countTrades_append, countTrades, isTradeEvent, List.filter]

/-- A normal return performs no exchange call. -/
theorem countSubmits_finishHit (o : Oracles) (sc : Nat) (b : Resp) (evs : List Event) :
    countSubmits (finishHit o sc b evs).events = countSubmits evs := by
  unfold finishHit
  cases h : o.log_hit_outcome with
  | none => simp [countSubmits_append, countSubmits, isEngineSubmit, List.filter]
  | some e =>
      rw [countSubmits_exceptPath]
      simp [countSubmits_append, countSubmits, isEngineSubmit, List.filter]

/-- Trade rows in the trace of the except branch are the ones already recorded. -/
theorem trade_mem_exceptPath (o : Oracles) (e : Str) (evs : List Event) (row : TradeRow) :
    Event.trade row ∈ (exceptPath o e evs).events ↔ Event.trade row ∈ evs := by
  unfold exceptPath
  cases o.except_log_hit_outcome <;> simp

/-- Trade rows in the trace of a normal return are the ones already recorded. -/
theorem trade_mem_finishHit (o : Oracles) (sc : Nat) (b : Resp) (evs : List Event)
    (row : TradeRow) :
    Event.trade row ∈ (finishHit o sc b evs).events ↔ Event.trade row ∈ evs := by
  unfold finishHit
  cases o.log_hit_outcome with
  | none => simp
  | some e => rw [trade_mem_exceptPath]; simp

/-- Response of a normal return when the webhook-hit write succeeds. -/
theorem response_finishHit (o : Oracles) (sc : Nat) (b : Resp) (evs : List Event)
    (h : o.log_hit_outcome = none) :
    (finishHit o sc b evs).response = .ok (sc, b) := by
  unfold finishHit
  rw [h]

/-- Response of the except branch when its own webhook-hit write succeeds. -/
theorem response_exceptPath (o : Oracles) (e : Str) (evs : List Event)
    (h : o.except_log_hit_outcome = none) :
    (exceptPath o e evs).response = .ok (400, .errMsg e) := by
  unfold exceptPath
  rw [h]

/-- The actionable tail records exactly one trade row. -/
theorem countTrades_placeAndLog (data : Dict) (o : Oracles) (q p1 p2 p3 : ℚ) :
    countTrades (placeAndLog data o q p1 p2 p3).events = 1 := by
  rcases hlt : o.log_trade_outcome with _ | e
  · simp only [placeAndLog, hlt]
    split <;>
    · rw [countTrades_finishHit, countTrades_append]
      simp [countTrades, isTradeEvent, List.filter, List.filter_map]
  · simp only [placeAndLog, hlt]
    rw [countTrades_exceptPath, countTrades_append]
    simp [countTrades, isTradeEvent, List.filter, List.filter_map]

/-- The actionable tail submits exactly one exchange order. -/
theorem countSubmits_placeAndLog (data : Dict) (o : Oracles) (q p1 p2 p3 : ℚ) :
    countSubmits (placeAndLog data o q p1 p2 p3).events = 1 := by
  have hmap : ∀ (calls : List ApiCall),
      countSubmits (calls.map Event.api) = countNewOrder calls := by
    intro calls
    unfold countSubmits countNewOrder
    rw [List.filter_map, List.length_map]
    rfl
  rcases hlt : o.log_trade_outcome with _ | e
  · simp only [placeAndLog, hlt]
    split <;>
    · rw [countSubmits_finishHit, countSubmits_append, hmap, engine_submits_once]
      rfl
  · simp only [placeAndLog, hlt]
    rw [countSubmits_exceptPath, countSubmits_append, hmap, engine_submits_once]
    rfl

/-- The one trade row the actionable tail records. -/
theorem trade_row_placeAndLog (data : Dict) (o : Oracles) (q p1 p2 p3 : ℚ) (row : TradeRow) :
    Event.trade row ∈ (placeAndLog data o q p1 p2 p3).events →
    row = { action := actionValue data,
            symbol := normalize_symbol (rawSymbolValue data), qty := q,
            entry_price := p1, sl_price := p2, tp_price := p3,
            status := if engineOk o.new_order_result o.get_order_result
              then ("success".toList) else ("error".toList),
            error := if engineOk o.new_order_result o.get_order_result then []
              else ((place_market_order_with_fallback o.new_order_result o.get_order_result
                (actionValue data) (normalize_symbol (rawSymbolValue data)) q
                o.now_ms o.uuid_hex8).1.error.getD []),
            client_id := mk_client_id o.now_ms o.uuid_hex8,
            note := (place_market_order_with_fallback o.new_order_result o.get_order_result
                (actionValue data) (normalize_symbol (rawSymbolValue data)) q
                o.now_ms o.uuid_hex8).1.note.getD [] } := by
  intro hmem
  rcases hlt : o.log_trade_outcome with _ | e <;>
    cases hb : engineOk o.new_order_result o.get_order_result
  all_goals
    simp only [placeAndLog, hlt, engine_ok, engine_client_id, hb, if_true, if_false,
      Bool.true_eq_false, Bool.false_eq_true, ite_true, ite_false] at hmem
  all_goals
    first
      | rw [trade_mem_finishHit] at hmem
      | rw [trade_mem_exceptPath] at hmem
  all_goals
    rcases List.mem_append.1 hmem with hmem | hmem
  all_goals
    try (rcases List.mem_map.1 hmem with ⟨c, _, hc⟩
         exact absurd hc (by simp))
  all_goals
    have h := List.mem_singleton.1 hmem
  all_goals
    injection h with h

/-!  ## Branch equations for the webhook handler  -/

/-- Handler equation: empty (or non-JSON) payload is acknowledged and ignored. -/
theorem handle_tv_empty (data : Dict) (o : Oracles) (h : data.isEmpty = true) :
    handle_tv data o = finishHit o 200 (.okNote ("non-json or empty; ignored".toList)) [] := by
  simp only [handle_tv, h, if_true]

/-- Handler equation: the ping branch fires exactly on a literal boolean `true`. -/
theorem handle_tv_ping (data : Dict) (o : Oracles) (hne : data.isEmpty = false)
    (hping : dictGet data ("ping".toList) = some (JValue.bool true)) :
    handle_tv data o = finishHit o 200 (.okNote ("pong".toList)) [] := by
  simp only [handle_tv, hne, hping, Bool.false_eq_true, if_true, if_false]

/-- Handler equation: the ignored-non-trade branch. -/
theorem handle_tv_ignored (data : Dict) (o : Oracles) (hne : data.isEmpty = false)
    (hping : ¬ dictGet data ("ping".toList) = some (JValue.bool true))
    (hdbg : (dictGet data ("debug".toList)).isSome = false)
    (ha : actionValue data ≠ ("BUY".toList) ∧ actionValue data ≠ ("SELL".toList)) :
    handle_tv data o = finishHit o 200 (.okNote ("ignored (no BUY/SELL)".toList)) [] := by
  simp only [handle_tv, hne, hping, hdbg, Bool.false_eq_true, if_true, if_false]
  rw [if_pos ha]

/-- Handler equation: the unsupported-symbol rejection. -/
theorem handle_tv_unsupported (data : Dict) (o : Oracles) (hne : data.isEmpty = false)
    (hping : ¬ dictGet data ("ping".toList) = some (JValue.bool true))
    (hdbg : (dictGet data ("debug".toList)).isSome = false)
    (ha : ¬ (actionValue data ≠ ("BUY".toList) ∧ actionValue data ≠ ("SELL".toList)))
    (hs : normalize_symbol (rawSymbolValue data) ∉ ALLOWED_SYMBOLS) :
    handle_tv data o = finishHit o 400 (.errMsg (("Unsupported symbol \x27".toList)
      ++ rawSymbolValue data ++ ("\x27 after normalization -> \x27".toList)
      ++ normalize_symbol (rawSymbolValue data) ++ ("\x27".toList))) [] := by
  simp only [handle_tv, hne, hping, hdbg, ha, hs, Bool.false_eq_true, if_true, if_false,
    not_false_eq_true]

/-- Handler equation: unparsable quantity is rejected with "Invalid qty". -/
theorem handle_tv_qty_unparsable (data : Dict) (o : Oracles) (hne : data.isEmpty = false)
    (hping : ¬ dictGet data ("ping".toList) = some (JValue.bool true))
    (hdbg : (dictGet data ("debug".toList)).isSome = false)
    (ha : ¬ (actionValue data ≠ ("BUY".toList) ∧ actionValue data ≠ ("SELL".toList)))
    (hs : ¬ normalize_symbol (rawSymbolValue data) ∉ ALLOWED_SYMBOLS)
    (e : Str)
    (hq : pyFloat (qtyValue data (normalize_symbol (rawSymbolValue data))) = .error e) :
    handle_tv data o = finishHit o 400 (.errMsg ("Invalid qty".toList)) [] := by
  simp only [handle_tv, hne, hping, hdbg, ha, hs, hq, Bool.false_eq_true, if_true, if_false]

/-- Handler equation: non-positive quantity is rejected with "Invalid qty". -/
theorem handle_tv_qty_nonpos (data : Dict) (o : Oracles) (hne : data.isEmpty = false)
    (hping : ¬ dictGet data ("ping".toList) = some (JValue.bool true))
    (hdbg : (dictGet data ("debug".toList)).isSome = false)
    (ha : ¬ (actionValue data ≠ ("BUY".toList) ∧ actionValue data ≠ ("SELL".toList)))
    (hs : ¬ normalize_symbol (rawSymbolValue data) ∉ ALLOWED_SYMBOLS)
    (q : ℚ)
    (hq : pyFloat (qtyValue data (normalize_symbol (rawSymbolValue data))) = .ok q)
    (hq0 : q ≤ 0) :
    handle_tv data o = finishHit o 400 (.errMsg ("Invalid qty".toList)) [] := by
  simp only [handle_tv, hne, hping, hdbg, ha, hs, hq, hq0, Bool.false_eq_true, if_true, if_false]

/-- Handler equation: a raising `float()` in the price extraction falls to the
except branch (HTTP 400 with the exception text) before any order is placed. -/
theorem handle_tv_entry_price_raises (data : Dict) (o : Oracles) (hne : data.isEmpty = false)
    (hping : ¬ dictGet data ("ping".toList) = some (JValue.bool true))
    (hdbg : (dictGet data ("debug".toList)).isSome = false)
    (ha : ¬ (actionValue data ≠ ("BUY".toList) ∧ actionValue data ≠ ("SELL".toList)))
    (hs : ¬ normalize_symbol (rawSymbolValue data) ∉ ALLOWED_SYMBOLS)
    (q : ℚ)
    (hq : pyFloat (qtyValue data (normalize_symbol (rawSymbolValue data))) = .ok q)
    (hq0 : ¬ q ≤ 0)
    (e : Str)
    (hp : pyFloat (orZero (dictGetD data ("entry_price".toList) (.num 0))) = .error e) :
    handle_tv data o = exceptPath o e [] := by
  simp only [handle_tv, hne, hping, hdbg, ha, hs, hq, hq0, hp, Bool.false_eq_true, if_true, if_false]

/-- Handler equation: the fully-validated actionable path. -/
theorem handle_tv_main (data : Dict) (o : Oracles) (hne : data.isEmpty = false)
    (hping : ¬ dictGet data ("ping".toList) = some (JValue.bool true))
    (hdbg : (dictGet data ("debug".toList)).isSome = false)
    (ha : ¬ (actionValue data ≠ ("BUY".toList) ∧ actionValue data ≠ ("SELL".toList)))
    (hs : ¬ normalize_symbol (rawSymbolValue data) ∉ ALLOWED_SYMBOLS)
    (q : ℚ)
    (hq : pyFloat (qtyValue data (normalize_symbol (rawSymbolValue data))) = .ok q)
    (hq0 : ¬ q ≤ 0)
    (p1 p2 p3 : ℚ)
    (hp1 : pyFloat (orZero (dictGetD data ("entry_price".toList) (.num 0))) = .ok p1)
    (hp2 : pyFloat (orZero (dictGetD data ("sl_price".toList) (.num 0))) = .ok p2)
    (hp3 : pyFloat (orZero (dictGetD data ("tp_price".toList) (.num 0))) = .ok p3) :
    handle_tv data o = placeAndLog data o q p1 p2 p3 := by
  simp only [handle_tv, hne, hping, hdbg, ha, hs, hq, hq0, hp1, hp2, hp3, Bool.false_eq_true, if_true, if_false]

/-!  ## Claims C7, C8: diagnostic and non-trade payloads  -/

/-- C7 as stated is false: the code tests `data.get("ping") is True`, so only a
literal boolean `true` fires the pong branch.  The payload `{"ping": 1}` has a
truthy ping field yet is answered with note "ignored (no BUY/SELL)", not "pong". -/
theorem c7_counterexample :
    truthy (JValue.num 1) = true ∧
    (handle_tv [ (("ping".toList), JValue.num 1) ] oracleAllOk).response
      = .ok (200, .okNote ("ignored (no BUY/SELL)".toList)) ∧
    ("ignored (no BUY/SELL)".toList) ≠ ("pong".toList) :=
  ⟨by decide, rfl, by decide⟩

/-- C7 (amended): for every payload whose `ping` field is exactly the boolean
`true`, the handler answers HTTP 200 with note "pong" (when the audit write
succeeds) and the Order Placement Engine is never invoked; other truthy ping
values fall through to the later steps. -/
theorem c7_ping_literal_true (data : Dict) (o : Oracles)
    (hne : data.isEmpty = false)
    (hping : dictGet data ("ping".toList) = some (JValue.bool true))
    (hlog : o.log_hit_outcome = none) :
    (handle_tv data o).response = .ok (200, .okNote ("pong".toList)) ∧
    countSubmits (handle_tv data o).events = 0 := by
  rw [handle_tv_ping data o hne hping]
  exact ⟨response_finishHit o 200 _ [] hlog, by rw [countSubmits_finishHit]; rfl⟩

/-- Witness for C7's amended theorem: the payload `{"ping": true}`. -/
theorem c7_witness :
    (handle_tv [ (("ping".toList), JValue.bool true) ] oracleAllOk).response
        = .ok (200, .okNote ("pong".toList)) ∧
    countSubmits (handle_tv [ (("ping".toList), JValue.bool true) ] oracleAllOk).events = 0 :=
  c7_ping_literal_true [ (("ping".toList), JValue.bool true) ] oracleAllOk rfl rfl rfl

/-- C8: a parsed, non-diagnostic payload whose upper-cased action is not exactly
"BUY" or "SELL" is answered HTTP 200 with note "ignored (no BUY/SELL)" — never a
400 rejection — regardless of its symbol, because the action check precedes the
symbol allow-list check; and the Order Placement Engine is never invoked. -/
theorem c8_non_trade_ignorable (data : Dict) (o : Oracles)
    (hne : data.isEmpty = false)
    (hping : ¬ dictGet data ("ping".toList) = some (JValue.bool true))
    (hdbg : (dictGet data ("debug".toList)).isSome = false)
    (ha : actionValue data ≠ ("BUY".toList) ∧ actionValue data ≠ ("SELL".toList))
    (hlog : o.log_hit_outcome = none) :
    (handle_tv data o).response = .ok (200, .okNote ("ignored (no BUY/SELL)".toList)) ∧
    (∀ msg : Str, (handle_tv data o).response ≠ .ok (400, .errMsg msg)) ∧
    countSubmits (handle_tv data o).events = 0 := by
  rw [handle_tv_ignored data o hne hping hdbg ha]
  refine ⟨response_finishHit o 200 _ [] hlog, ?_, by rw [countSubmits_finishHit]; rfl⟩
  intro msg hmsg
  rw [response_finishHit o 200 _ [] hlog] at hmsg
  simp at hmsg

/-- Witness for C8: `{"action": "HOLD", "symbol": "DOGEUSDT"}`, whose symbol is
outside the allow-list, is still ignored with HTTP 200. -/
theorem c8_witness :
    (handle_tv [ (("action".toList), JValue.str ("HOLD".toList)),
                 (("symbol".toList), JValue.str ("DOGEUSDT".toList)) ] oracleAllOk).response
        = .ok (200, .okNote ("ignored (no BUY/SELL)".toList)) ∧
    (∀ msg : Str, (handle_tv [ (("action".toList), JValue.str ("HOLD".toList)),
                 (("symbol".toList), JValue.str ("DOGEUSDT".toList)) ] oracleAllOk).response
        ≠ .ok (400, .errMsg msg)) ∧
    countSubmits (handle_tv [ (("action".toList), JValue.str ("HOLD".toList)),
                 (("symbol".toList), JValue.str ("DOGEUSDT".toList)) ] oracleAllOk).events = 0 :=
  c8_non_trade_ignorable
    [ (("action".toList), JValue.str ("HOLD".toList)),
      (("symbol".toList), JValue.str ("DOGEUSDT".toList)) ] oracleAllOk
    rfl (by decide) rfl (by decide) rfl

/-- Handler equation: the debug branch. -/
theorem handle_tv_debug (data : Dict) (o : Oracles) (hne : data.isEmpty = false)
    (hping : ¬ dictGet data ("ping".toList) = some (JValue.bool true))
    (hdbg : (dictGet data ("debug".toList)).isSome = true) :
    handle_tv data o = finishHit o 200 (.okNote ("debug received".toList)) [] := by
  simp only [handle_tv, hne, hping, hdbg, Bool.false_eq_true, if_true, if_false]

/-- Handler equation: a raising `float()` on the stop-loss price. -/
theorem handle_tv_sl_price_raises (data : Dict) (o : Oracles) (hne : data.isEmpty = false)
    (hping : ¬ dictGet data ("ping".toList) = some (JValue.bool true))
    (hdbg : (dictGet data ("debug".toList)).isSome = false)
    (ha : ¬ (actionValue data ≠ ("BUY".toList) ∧ actionValue data ≠ ("SELL".toList)))
    (hs : ¬ normalize_symbol (rawSymbolValue data) ∉ ALLOWED_SYMBOLS)
    (q : ℚ)
    (hq : pyFloat (qtyValue data (normalize_symbol (rawSymbolValue data))) = .ok q)
    (hq0 : ¬ q ≤ 0)
    (p1 : ℚ)
    (hp1 : pyFloat (orZero (dictGetD data ("entry_price".toList) (.num 0))) = .ok p1)
    (e : Str)
    (hp2 : pyFloat (orZero (dictGetD data ("sl_price".toList) (.num 0))) = .error e) :
    handle_tv data o = exceptPath o e [] := by
  simp only [handle_tv, hne, hping, hdbg, ha, hs, hq, hq0, hp1, hp2,
    Bool.false_eq_true, if_true, if_false]

/-- Handler equation: a raising `float()` on the take-profit price. -/
theorem handle_tv_tp_price_raises (data : Dict) (o : Oracles) (hne : data.isEmpty = false)
    (hping : ¬ dictGet data ("ping".toList) = some (JValue.bool true))
    (hdbg : (dictGet data ("debug".toList)).isSome = false)
    (ha : ¬ (actionValue data ≠ ("BUY".toList) ∧ actionValue data ≠ ("SELL".toList)))
    (hs : ¬ normalize_symbol (rawSymbolValue data) ∉ ALLOWED_SYMBOLS)
    (q : ℚ)
    (hq : pyFloat (qtyValue data (normalize_symbol (rawSymbolValue data))) = .ok q)
    (hq0 : ¬ q ≤ 0)
    (p1 p2 : ℚ)
    (hp1 : pyFloat (orZero (dictGetD data ("entry_price".toList) (.num 0))) = .ok p1)
    (hp2 : pyFloat (orZero (dictGetD data ("sl_price".toList) (.num 0))) = .ok p2)
    (e : Str)
    (hp3 : pyFloat (orZero (dictGetD data ("tp_price".toList) (.num 0))) = .error e) :
    handle_tv data o = exceptPath o e [] := by
  simp only [handle_tv, hne, hping, hdbg, ha, hs, hq, hq0, hp1, hp2, hp3,
    Bool.false_eq_true, if_true, if_false]

/-- Response of the actionable tail when the order succeeded and both audit
writes succeed: the HTTP 200 success body with the correlation id and order. -/
theorem response_placeAndLog_ok (data : Dict) (o : Oracles) (q p1 p2 p3 : ℚ)
    (hok : engineOk o.new_order_result o.get_order_result = true)
    (hlt : o.log_trade_outcome = none) (hlh : o.log_hit_outcome = none) :
    (placeAndLog data o q p1 p2 p3).response
      = .ok (200, .success (mk_client_id o.now_ms o.uuid_hex8)
          ((place_market_order_with_fallback o.new_order_result o.get_order_result
            (actionValue data) (normalize_symbol (rawSymbolValue data)) q
            o.now_ms o.uuid_hex8).1.order)) := by
  simp only [placeAndLog, hlt, engine_ok, engine_client_id, hok, if_true]
  exact response_finishHit o 200 _ _ hlh

/-- Response of the actionable tail when the trade-row write raises: the outer
exception boundary answers HTTP 400 with the exception text. -/
theorem response_placeAndLog_trade_raises (data : Dict) (o : Oracles) (q p1 p2 p3 : ℚ)
    (e : Str) (hlt : o.log_trade_outcome = some e)
    (hex : o.except_log_hit_outcome = none) :
    (placeAndLog data o q p1 p2 p3).response = .ok (400, .errMsg e) := by
  simp only [placeAndLog, hlt]
  exact response_exceptPath o e _ hex

/-- Response of a normal return whose webhook-hit write raises: the outer
exception boundary answers HTTP 400 with the exception text. -/
theorem response_finishHit_raises (o : Oracles) (sc : Nat) (b : Resp) (evs : List Event)
    (e : Str) (h : o.log_hit_outcome = some e) (hex : o.except_log_hit_outcome = none) :
    (finishHit o sc b evs).response = .ok (400, .errMsg e) := by
  unfold finishHit
  rw [h]
  exact response_exceptPath o e _ hex

/-!  ## Claim C4: audit-write failure after a successful placement  -/

/-- C4 as stated is false: for the same successful BUY request, the response is
the HTTP 200 success body when the audit writes succeed, but becomes an HTTP 400
error response when `log_trade` raises — the outer `except` boundary catches the
write failure and masks the successful placement. -/
theorem c4_counterexample :
    (handle_tv [ (("action".toList), JValue.str ("BUY".toList)),
                 (("symbol".toList), JValue.str ("BTCUSDT".toList)),
                 (("qty".toList), JValue.num 1) ] oracleAllOk).response
      = .ok (200, .success (mk_client_id 5 ("deadbeef".toList)) (some ("FILLED".toList))) ∧
    (handle_tv [ (("action".toList), JValue.str ("BUY".toList)),
                 (("symbol".toList), JValue.str ("BTCUSDT".toList)),
                 (("qty".toList), JValue.num 1) ]
        { oracleAllOk with log_trade_outcome := some ("db locked".toList) }).response
      = .ok (400, .errMsg ("db locked".toList)) ∧
    Resp.errMsg ("db locked".toList)
      ≠ Resp.success (mk_client_id 5 ("deadbeef".toList)) (some ("FILLED".toList)) :=
  ⟨rfl, rfl, by decide⟩

/-- C4 (amended): on a fully-validated request whose order placement succeeds,
the caller receives the HTTP 200 success body (with the correlation id and the
order) only when the audit writes succeed; if the `log_trade` write raises, the
outer exception boundary responds HTTP 400 with the exception text, and if the
final `log_webhook_hit` raises it likewise responds HTTP 400 — the audit-write
failure does change the response and masks the success. -/
theorem c4_audit_failure_masks_success (data : Dict) (o : Oracles)
    (hne : data.isEmpty = false)
    (hping : ¬ dictGet data ("ping".toList) = some (JValue.bool true))
    (hdbg : (dictGet data ("debug".toList)).isSome = false)
    (ha : ¬ (actionValue data ≠ ("BUY".toList) ∧ actionValue data ≠ ("SELL".toList)))
    (hs : ¬ normalize_symbol (rawSymbolValue data) ∉ ALLOWED_SYMBOLS)
    (q : ℚ)
    (hq : pyFloat (qtyValue data (normalize_symbol (rawSymbolValue data))) = .ok q)
    (hq0 : ¬ q ≤ 0)
    (p1 p2 p3 : ℚ)
    (hp1 : pyFloat (orZero (dictGetD data ("entry_price".toList) (.num 0))) = .ok p1)
    (hp2 : pyFloat (orZero (dictGetD data ("sl_price".toList) (.num 0))) = .ok p2)
    (hp3 : pyFloat (orZero (dictGetD data ("tp_price".toList) (.num 0))) = .ok p3)
    (hok : engineOk o.new_order_result o.get_order_result = true) :
    (o.log_trade_outcome = none → o.log_hit_outcome = none →
      (handle_tv data o).response
        = .ok (200, .success (mk_client_id o.now_ms o.uuid_hex8)
            ((place_market_order_with_fallback o.new_order_result o.get_order_result
              (actionValue data) (normalize_symbol (rawSymbolValue data)) q
              o.now_ms o.uuid_hex8).1.order))) ∧
    (∀ e, o.log_trade_outcome = some e → o.except_log_hit_outcome = none →
      (handle_tv data o).response = .ok (400, .errMsg e)) ∧
    (∀ e, o.log_trade_outcome = none → o.log_hit_outcome = some e →
      o.except_log_hit_outcome = none →
      (handle_tv data o).response = .ok (400, .errMsg e)) := by
  rw [handle_tv_main data o hne hping hdbg ha hs q hq hq0 p1 p2 p3 hp1 hp2 hp3]
  refine ⟨?_, ?_, ?_⟩
  · intro hlt hlh
    exact response_placeAndLog_ok data o q p1 p2 p3 hok hlt hlh
  · intro e hlt hex
    exact response_placeAndLog_trade_raises data o q p1 p2 p3 e hlt hex
  · intro e hlt hlh hex
    simp only [placeAndLog, hlt, engine_ok, engine_client_id, hok, if_true]
    exact response_finishHit_raises o 200 _ _ e hlh hex

/-- Witness for C4's amended theorem: the same concrete BUY request with a
raising `log_trade`. -/
theorem c4_witness :
    (({ oracleAllOk with log_trade_outcome := some ("db locked".toList) } : Oracles).log_trade_outcome
        = none →
      ({ oracleAllOk with log_trade_outcome := some ("db locked".toList) } : Oracles).log_hit_outcome
        = none →
      (handle_tv [ (("action".toList), JValue.str ("BUY".toList)),
                   (("symbol".toList), JValue.str ("BTCUSDT".toList)),
                   (("qty".toList), JValue.num 1) ]
          { oracleAllOk with log_trade_outcome := some ("db locked".toList) }).response
        = .ok (200, .success (mk_client_id 5 ("deadbeef".toList))
            ((place_market_order_with_fallback (.ok ("FILLED".toList)) (.ok ("LOOKED".toList))
              ("BUY".toList) ("BTCUSDT".toList) 1 5 ("deadbeef".toList)).1.order))) ∧
    (∀ e, ({ oracleAllOk with log_trade_outcome := some ("db locked".toList) } : Oracles).log_trade_outcome
        = some e →
      ({ oracleAllOk with log_trade_outcome := some ("db locked".toList) } : Oracles).except_log_hit_outcome
        = none →
      (handle_tv [ (("action".toList), JValue.str ("BUY".toList)),
                   (("symbol".toList), JValue.str ("BTCUSDT".toList)),
                   (("qty".toList), JValue.num 1) ]
          { oracleAllOk with log_trade_outcome := some ("db locked".toList) }).response
        = .ok (400, .errMsg e)) ∧
    (∀ e, ({ oracleAllOk with log_trade_outcome := some ("db locked".toList) } : Oracles).log_trade_outcome
        = none →
      ({ oracleAllOk with log_trade_outcome := some ("db locked".toList) } : Oracles).log_hit_outcome
        = some e →
      ({ oracleAllOk with log_trade_outcome := some ("db locked".toList) } : Oracles).except_log_hit_outcome
        = none →
      (handle_tv [ (("action".toList), JValue.str ("BUY".toList)),
                   (("symbol".toList), JValue.str ("BTCUSDT".toList)),
                   (("qty".toList), JValue.num 1) ]
          { oracleAllOk with log_trade_outcome := some ("db locked".toList) }).response
        = .ok (400, .errMsg e)) :=
  c4_audit_failure_masks_success
    [ (("action".toList), JValue.str ("BUY".toList)),
      (("symbol".toList), JValue.str ("BTCUSDT".toList)),
      (("qty".toList), JValue.num 1) ]
    { oracleAllOk with log_trade_outcome := some ("db locked".toList) }
    rfl (by decide) rfl (by decide) (by decide) 1 rfl (by norm_num) 0 0 0 rfl rfl rfl rfl

/-!  ## Claim C5: exactly one trade audit record per engine invocation  -/

/-- C5: on every handler run, the number of `log_trade` calls equals the number
of engine order submissions (the engine submits exactly once per invocation, so
a request that invokes the engine writes exactly one trade record, whatever the
outcome, and a request that does not invoke it writes none); and every recorded
trade row carries the engine-generated correlation id and status `"success"`
precisely when the engine run succeeded, `"error"` otherwise. -/
theorem c5_one_trade_record (data : Dict) (o : Oracles) :
    countTrades (handle_tv data o).events = countSubmits (handle_tv data o).events ∧
    (∀ row : TradeRow, Event.trade row ∈ (handle_tv data o).events →
      row.client_id = mk_client_id o.now_ms o.uuid_hex8 ∧
      row.status = (if engineOk o.new_order_result o.get_order_result
        then ("success".toList) else ("error".toList))) := by
  by_cases hne : data.isEmpty = true
  · rw [handle_tv_empty data o hne]
    refine ⟨by rw [countTrades_finishHit, countSubmits_finishHit]; rfl, ?_⟩
    intro row hrow
    rw [trade_mem_finishHit] at hrow
    exact absurd hrow (by simp)
  · rw [Bool.not_eq_true] at hne
    by_cases hping : dictGet data ("ping".toList) = some (JValue.bool true)
    · rw [handle_tv_ping data o hne hping]
      refine ⟨by rw [countTrades_finishHit, countSubmits_finishHit]; rfl, ?_⟩
      intro row hrow
      rw [trade_mem_finishHit] at hrow
      exact absurd hrow (by simp)
    · by_cases hdbg : (dictGet data ("debug".toList)).isSome = true
      · rw [handle_tv_debug data o hne hping hdbg]
        refine ⟨by rw [countTrades_finishHit, countSubmits_finishHit]; rfl, ?_⟩
        intro row hrow
        rw [trade_mem_finishHit] at hrow
        exact absurd hrow (by simp)
      · rw [Bool.not_eq_true] at hdbg
        by_cases ha : actionValue data ≠ ("BUY".toList) ∧ actionValue data ≠ ("SELL".toList)
        · rw [handle_tv_ignored data o hne hping hdbg ha]
          refine ⟨by rw [countTrades_finishHit, countSubmits_finishHit]; rfl, ?_⟩
          intro row hrow
          rw [trade_mem_finishHit] at hrow
          exact absurd hrow (by simp)
        · by_cases hs : normalize_symbol (rawSymbolValue data) ∉ ALLOWED_SYMBOLS
          · rw [handle_tv_unsupported data o hne hping hdbg ha hs]
            refine ⟨by rw [countTrades_finishHit, countSubmits_finishHit]; rfl, ?_⟩
            intro row hrow
            rw [trade_mem_finishHit] at hrow
            exact absurd hrow (by simp)
          · cases hq : pyFloat (qtyValue data (normalize_symbol (rawSymbolValue data))) with
            | error e =>
                rw [handle_tv_qty_unparsable data o hne hping hdbg ha hs e hq]
                refine ⟨by rw [countTrades_finishHit, countSubmits_finishHit]; rfl, ?_⟩
                intro row hrow
                rw [trade_mem_finishHit] at hrow
                exact absurd hrow (by simp)
            | ok q =>
                by_cases hq0 : q ≤ 0
                · rw [handle_tv_qty_nonpos data o hne hping hdbg ha hs q hq hq0]
                  refine ⟨by rw [countTrades_finishHit, countSubmits_finishHit]; rfl, ?_⟩
                  intro row hrow
                  rw [trade_mem_finishHit] at hrow
                  exact absurd hrow (by simp)
                · cases hp1 : pyFloat (orZero (dictGetD data ("entry_price".toList) (.num 0))) with
                  | error e =>
                      rw [handle_tv_entry_price_raises data o hne hping hdbg ha hs q hq hq0 e hp1]
                      refine ⟨by rw [countTrades_exceptPath, countSubmits_exceptPath]; rfl, ?_⟩
                      intro row hrow
                      rw [trade_mem_exceptPath] at hrow
                      exact absurd hrow (by simp)
                  | ok p1 =>
                      cases hp2 : pyFloat (orZero (dictGetD data ("sl_price".toList) (.num 0))) with
                      | error e =>
                          rw [handle_tv_sl_price_raises data o hne hping hdbg ha hs q hq hq0
                            p1 hp1 e hp2]
                          refine ⟨by rw [countTrades_exceptPath, countSubmits_exceptPath]; rfl, ?_⟩
                          intro row hrow
                          rw [trade_mem_exceptPath] at hrow
                          exact absurd hrow (by simp)
                      | ok p2 =>
                          cases hp3 : pyFloat (orZero (dictGetD data ("tp_price".toList) (.num 0))) with
                          | error e =>
                              rw [handle_tv_tp_price_raises data o hne hping hdbg ha hs q hq hq0
                                p1 p2 hp1 hp2 e hp3]
                              refine ⟨by rw [countTrades_exceptPath, countSubmits_exceptPath]; rfl,
                                ?_⟩
                              intro row hrow
                              rw [trade_mem_exceptPath] at hrow
                              exact absurd hrow (by simp)
                          | ok p3 =>
                              rw [handle_tv_main data o hne hping hdbg ha hs q hq hq0 p1 p2 p3
                                hp1 hp2 hp3]
                              refine ⟨by rw [countTrades_placeAndLog, countSubmits_placeAndLog], ?_⟩
                              intro row hrow
                              have hrw := trade_row_placeAndLog data o q p1 p2 p3 row hrow
                              subst hrw
                              exact ⟨rfl, rfl⟩

/-- Witness for C5 at a concrete successful BUY request. -/
theorem c5_witness :
    countTrades (handle_tv [ (("action".toList), JValue.str ("BUY".toList)),
        (("symbol".toList), JValue.str ("BTCUSDT".toList)),
        (("qty".toList), JValue.num 1) ] oracleAllOk).events
      = countSubmits (handle_tv [ (("action".toList), JValue.str ("BUY".toList)),
        (("symbol".toList), JValue.str ("BTCUSDT".toList)),
        (("qty".toList), JValue.num 1) ] oracleAllOk).events ∧
    (∀ row : TradeRow, Event.trade row ∈ (handle_tv [ (("action".toList), JValue.str ("BUY".toList)),
        (("symbol".toList), JValue.str ("BTCUSDT".toList)),
        (("qty".toList), JValue.num 1) ] oracleAllOk).events →
      row.client_id = mk_client_id 5 ("deadbeef".toList) ∧
      row.status = (if engineOk (.ok ("FILLED".toList)) (.ok ("LOOKED".toList))
        then ("success".toList) else ("error".toList))) :=
  c5_one_trade_record
    [ (("action".toList), JValue.str ("BUY".toList)),
      (("symbol".toList), JValue.str ("BTCUSDT".toList)),
      (("qty".toList), JValue.num 1) ] oracleAllOk

/-!  ## Claim C6: optional price extraction  -/

/-- C6 as stated is false: a present, truthy, unparsable price value (here
`entry_price = "abc"`) makes `float(...)` raise, the outer exception boundary
answers HTTP 400 with the conversion error, and no order is placed — the signal
does not proceed to order placement with the price recorded as zero. -/
theorem c6_counterexample :
    truthy (JValue.str ("abc".toList)) = true ∧
    (handle_tv [ (("action".toList), JValue.str ("BUY".toList)),
                 (("symbol".toList), JValue.str ("BTCUSDT".toList)),
                 (("qty".toList), JValue.num 1),
                 (("entry_price".toList), JValue.str ("abc".toList)) ] oracleAllOk).response
      = .ok (400, .errMsg ("could not convert string to float: \x27abc\x27".toList)) ∧
    countSubmits (handle_tv [ (("action".toList), JValue.str ("BUY".toList)),
                 (("symbol".toList), JValue.str ("BTCUSDT".toList)),
                 (("qty".toList), JValue.num 1),
                 (("entry_price".toList), JValue.str ("abc".toList)) ] oracleAllOk).events = 0 :=
  ⟨by decide, rfl, rfl⟩

/-- C6 (amended): on a fully-validated trade signal, each of the three optional
price fields behaves the same way: an absent or falsy value (missing, `null`,
`0`, `""`, `false`, empty containers) defaults to zero and, whenever all three
fields yield a parsable value, the signal proceeds to order placement with the
extracted prices (zero for every absent-or-falsy field) recorded in the trade
row; but a present truthy value that `float()` cannot parse — in whichever of
the three fields the extraction reaches first — raises, the request fails with
HTTP 400 carrying the conversion error, and no order is placed. -/
theorem c6_price_extraction (data : Dict) (o : Oracles)
    (hne : data.isEmpty = false)
    (hping : ¬ dictGet data ("ping".toList) = some (JValue.bool true))
    (hdbg : (dictGet data ("debug".toList)).isSome = false)
    (ha : ¬ (actionValue data ≠ ("BUY".toList) ∧ actionValue data ≠ ("SELL".toList)))
    (hs : ¬ normalize_symbol (rawSymbolValue data) ∉ ALLOWED_SYMBOLS)
    (q : ℚ)
    (hq : pyFloat (qtyValue data (normalize_symbol (rawSymbolValue data))) = .ok q)
    (hq0 : ¬ q ≤ 0) :
    (∀ p1 p2 p3 : ℚ,
      pyFloat (orZero (dictGetD data ("entry_price".toList) (.num 0))) = .ok p1 →
      pyFloat (orZero (dictGetD data ("sl_price".toList) (.num 0))) = .ok p2 →
      pyFloat (orZero (dictGetD data ("tp_price".toList) (.num 0))) = .ok p3 →
      countSubmits (handle_tv data o).events = 1 ∧
      (∀ row : TradeRow, Event.trade row ∈ (handle_tv data o).events →
        row.entry_price = p1 ∧ row.sl_price = p2 ∧ row.tp_price = p3) ∧
      (truthy (dictGetD data ("entry_price".toList) (.num 0)) = false → p1 = 0) ∧
      (truthy (dictGetD data ("sl_price".toList) (.num 0)) = false → p2 = 0) ∧
      (truthy (dictGetD data ("tp_price".toList) (.num 0)) = false → p3 = 0)) ∧
    (∀ e : Str, truthy (dictGetD data ("entry_price".toList) (.num 0)) = true →
      pyFloat (dictGetD data ("entry_price".toList) (.num 0)) = .error e →
      o.except_log_hit_outcome = none →
      (handle_tv data o).response = .ok (400, .errMsg e) ∧
      countSubmits (handle_tv data o).events = 0) ∧
    (∀ (p1 : ℚ) (e : Str),
      pyFloat (orZero (dictGetD data ("entry_price".toList) (.num 0))) = .ok p1 →
      truthy (dictGetD data ("sl_price".toList) (.num 0)) = true →
      pyFloat (dictGetD data ("sl_price".toList) (.num 0)) = .error e →
      o.except_log_hit_outcome = none →
      (handle_tv data o).response = .ok (400, .errMsg e) ∧
      countSubmits (handle_tv data o).events = 0) ∧
    (∀ (p1 p2 : ℚ) (e : Str),
      pyFloat (orZero (dictGetD data ("entry_price".toList) (.num 0))) = .ok p1 →
      pyFloat (orZero (dictGetD data ("sl_price".toList) (.num 0))) = .ok p2 →
      truthy (dictGetD data ("tp_price".toList) (.num 0)) = true →
      pyFloat (dictGetD data ("tp_price".toList) (.num 0)) = .error e →
      o.except_log_hit_outcome = none →
      (handle_tv data o).response = .ok (400, .errMsg e) ∧
      countSubmits (handle_tv data o).events = 0) := by
  refine ⟨?_, ?_, ?_, ?_⟩
  · intro p1 p2 p3 hp1 hp2 hp3
    rw [handle_tv_main data o hne hping hdbg ha hs q hq hq0 p1 p2 p3 hp1 hp2 hp3]
    refine ⟨countSubmits_placeAndLog data o q p1 p2 p3, ?_, ?_, ?_, ?_⟩
    · intro row hrow
      have hrw := trade_row_placeAndLog data o q p1 p2 p3 row hrow
      subst hrw
      exact ⟨rfl, rfl, rfl⟩
    · intro hE
      have h0 : pyFloat (orZero (dictGetD data ("entry_price".toList) (.num 0))) = .ok 0 := by
        unfold orZero
        rw [hE, if_neg (by decide)]
        rfl
      exact (Except.ok.inj (h0.symm.trans hp1)).symm
    · intro hS
      have h0 : pyFloat (orZero (dictGetD data ("sl_price".toList) (.num 0))) = .ok 0 := by
        unfold orZero
        rw [hS, if_neg (by decide)]
        rfl
      exact (Except.ok.inj (h0.symm.trans hp2)).symm
    · intro hT
      have h0 : pyFloat (orZero (dictGetD data ("tp_price".toList) (.num 0))) = .ok 0 := by
        unfold orZero
        rw [hT, if_neg (by decide)]
        rfl
      exact (Except.ok.inj (h0.symm.trans hp3)).symm
  · intro e hE hperr hex
    have hpE : pyFloat (orZero (dictGetD data ("entry_price".toList) (.num 0))) = .error e := by
      unfold orZero
      rw [hE, if_pos rfl]
      exact hperr
    rw [handle_tv_entry_price_raises data o hne hping hdbg ha hs q hq hq0 e hpE]
    exact ⟨response_exceptPath o e [] hex, by rw [countSubmits_exceptPath]; rfl⟩
  · intro p1 e hp1 hS hperr hex
    have hpS : pyFloat (orZero (dictGetD data ("sl_price".toList) (.num 0))) = .error e := by
      unfold orZero
      rw [hS, if_pos rfl]
      exact hperr
    rw [handle_tv_sl_price_raises data o hne hping hdbg ha hs q hq hq0 p1 hp1 e hpS]
    exact ⟨response_exceptPath o e [] hex, by rw [countSubmits_exceptPath]; rfl⟩
  · intro p1 p2 e hp1 hp2 hT hperr hex
    have hpT : pyFloat (orZero (dictGetD data ("tp_price".toList) (.num 0))) = .error e := by
      unfold orZero
      rw [hT, if_pos rfl]
      exact hperr
    rw [handle_tv_tp_price_raises data o hne hping hdbg ha hs q hq hq0 p1 p2 hp1 hp2 e hpT]
    exact ⟨response_exceptPath o e [] hex, by rw [countSubmits_exceptPath]; rfl⟩

/-- Witness for C6's amended theorem: a BUY signal with a truthy numeric
`entry_price` and no other price fields proceeds to placement, recording the
extracted entry price and zeros for the two absent fields. -/
theorem c6_witness :
    countSubmits (handle_tv [ (("action".toList), JValue.str ("BUY".toList)),
        (("symbol".toList), JValue.str ("BTCUSDT".toList)),
        (("qty".toList), JValue.num 1),
        (("entry_price".toList), JValue.num 3) ] oracleAllOk).events = 1 ∧
    (∀ row : TradeRow, Event.trade row ∈ (handle_tv [ (("action".toList), JValue.str ("BUY".toList)),
        (("symbol".toList), JValue.str ("BTCUSDT".toList)),
        (("qty".toList), JValue.num 1),
        (("entry_price".toList), JValue.num 3) ] oracleAllOk).events →
      row.entry_price = 3 ∧ row.sl_price = 0 ∧ row.tp_price = 0) ∧
    (truthy (dictGetD [ (("action".toList), JValue.str ("BUY".toList)),
        (("symbol".toList), JValue.str ("BTCUSDT".toList)),
        (("qty".toList), JValue.num 1),
        (("entry_price".toList), JValue.num 3) ] ("entry_price".toList) (.num 0))
      = false → (3 : ℚ) = 0) ∧
    (truthy (dictGetD [ (("action".toList), JValue.str ("BUY".toList)),
        (("symbol".toList), JValue.str ("BTCUSDT".toList)),
        (("qty".toList), JValue.num 1),
        (("entry_price".toList), JValue.num 3) ] ("sl_price".toList) (.num 0))
      = false → (0 : ℚ) = 0) ∧
    (truthy (dictGetD [ (("action".toList), JValue.str ("BUY".toList)),
        (("symbol".toList), JValue.str ("BTCUSDT".toList)),
        (("qty".toList), JValue.num 1),
        (("entry_price".toList), JValue.num 3) ] ("tp_price".toList) (.num 0))
      = false → (0 : ℚ) = 0) :=
  (c6_price_extraction
    [ (("action".toList), JValue.str ("BUY".toList)),
      (("symbol".toList), JValue.str ("BTCUSDT".toList)),
      (("qty".toList), JValue.num 1),
      (("entry_price".toList), JValue.num 3) ] oracleAllOk
    rfl (by decide) rfl (by decide) (by decide) 1 rfl (by norm_num)).1
    3 0 0 rfl rfl rfl

/-!  ## Claim C9: quantity extraction and validation  -/

/-- Every per-symbol default quantity is positive. -/
theorem DEFAULT_QTY_pos (s : Str) : 0 < DEFAULT_QTY s := by
  unfold DEFAULT_QTY
  split_ifs <;> norm_num

/-- C9: for a payload with a valid action and an allow-listed symbol, the
quantity is taken from the `qty` field, else the `quantity` field (a JSON `null`
value is Python `None` and counts as absent, exactly as `dict.get` sees it);
when both are absent the per-symbol configured default is substituted and the
signal proceeds to order placement carrying that default; and when the extracted
value cannot be parsed as a number, or parses to a value `≤ 0`, the request is
rejected with HTTP 400 and reason "Invalid qty" and no order is placed. -/
theorem c9_qty_validation (data : Dict) (o : Oracles)
    (hne : data.isEmpty = false)
    (hping : ¬ dictGet data ("ping".toList) = some (JValue.bool true))
    (hdbg : (dictGet data ("debug".toList)).isSome = false)
    (ha : ¬ (actionValue data ≠ ("BUY".toList) ∧ actionValue data ≠ ("SELL".toList)))
    (hs : ¬ normalize_symbol (rawSymbolValue data) ∉ ALLOWED_SYMBOLS) :
    (∀ v : JValue, dictGet data ("qty".toList) = some v → v ≠ JValue.null →
      qtyValue data (normalize_symbol (rawSymbolValue data)) = v) ∧
    (∀ v : JValue, dictGet data ("qty".toList) = none →
      dictGet data ("quantity".toList) = some v → v ≠ JValue.null →
      qtyValue data (normalize_symbol (rawSymbolValue data)) = v) ∧
    (dictGet data ("qty".toList) = none → dictGet data ("quantity".toList) = none →
      qtyValue data (normalize_symbol (rawSymbolValue data))
        = .num (DEFAULT_QTY (normalize_symbol (rawSymbolValue data))) ∧
      (truthy (dictGetD data ("entry_price".toList) (.num 0)) = false →
       truthy (dictGetD data ("sl_price".toList) (.num 0)) = false →
       truthy (dictGetD data ("tp_price".toList) (.num 0)) = false →
       countSubmits (handle_tv data o).events = 1 ∧
       (∀ row : TradeRow, Event.trade row ∈ (handle_tv data o).events →
         row.qty = DEFAULT_QTY (normalize_symbol (rawSymbolValue data))))) ∧
    (∀ e : Str, pyFloat (qtyValue data (normalize_symbol (rawSymbolValue data))) = .error e →
      o.log_hit_outcome = none →
      (handle_tv data o).response = .ok (400, .errMsg ("Invalid qty".toList)) ∧
      countSubmits (handle_tv data o).events = 0) ∧
    (∀ q : ℚ, pyFloat (qtyValue data (normalize_symbol (rawSymbolValue data))) = .ok q →
      q ≤ 0 → o.log_hit_outcome = none →
      (handle_tv data o).response = .ok (400, .errMsg ("Invalid qty".toList)) ∧
      countSubmits (handle_tv data o).events = 0) := by
  refine ⟨?_, ?_, ?_, ?_, ?_⟩
  · intro v hv hnn
    simp only [qtyValue, hv]
    rw [if_neg hnn]
  · intro v hq1 hv hnn
    simp only [qtyValue, hq1, hv, Option.getD_some]
    rw [if_neg hnn]
  · intro hq1 hq2
    have hval : qtyValue data (normalize_symbol (rawSymbolValue data))
        = .num (DEFAULT_QTY (normalize_symbol (rawSymbolValue data))) := by
      simp only [qtyValue, hq1, hq2, Option.getD_none, if_true]
    refine ⟨hval, ?_⟩
    intro hE hS hT
    have hqF : pyFloat (qtyValue data (normalize_symbol (rawSymbolValue data)))
        = .ok (DEFAULT_QTY (normalize_symbol (rawSymbolValue data))) := by
      rw [hval]
      rfl
    have hq0 : ¬ DEFAULT_QTY (normalize_symbol (rawSymbolValue data)) ≤ 0 :=
      not_le.mpr (DEFAULT_QTY_pos _)
    have hpE : pyFloat (orZero (dictGetD data ("entry_price".toList) (.num 0))) = .ok 0 := by
      unfold orZero
      rw [hE, if_neg (by decide)]
      rfl
    have hpS : pyFloat (orZero (dictGetD data ("sl_price".toList) (.num 0))) = .ok 0 := by
      unfold orZero
      rw [hS, if_neg (by decide)]
      rfl
    have hpT : pyFloat (orZero (dictGetD data ("tp_price".toList) (.num 0))) = .ok 0 := by
      unfold orZero
      rw [hT, if_neg (by decide)]
      rfl
    rw [handle_tv_main data o hne hping hdbg ha hs _ hqF hq0 0 0 0 hpE hpS hpT]
    refine ⟨countSubmits_placeAndLog data o _ 0 0 0, ?_⟩
    intro row hrow
    have hrw := trade_row_placeAndLog data o _ 0 0 0 row hrow
    subst hrw
    rfl
  · intro e hqe hlh
    rw [handle_tv_qty_unparsable data o hne hping hdbg ha hs e hqe]
    exact ⟨response_finishHit o 400 _ [] hlh, by rw [countSubmits_finishHit]; rfl⟩
  · intro q hqok hq0 hlh
    rw [handle_tv_qty_nonpos data o hne hping hdbg ha hs q hqok hq0]
    exact ⟨response_finishHit o 400 _ [] hlh, by rw [countSubmits_finishHit]; rfl⟩

/-- Witness for C9: `{"action": "BUY", "symbol": "BTCUSDT", "qty": -1}` is
rejected with HTTP 400 and reason "Invalid qty", with no order placed. -/
theorem c9_witness :
    (handle_tv [ (("action".toList), JValue.str ("BUY".toList)),
        (("symbol".toList), JValue.str ("BTCUSDT".toList)),
        (("qty".toList), JValue.num (-1)) ] oracleAllOk).response
      = .ok (400, .errMsg ("Invalid qty".toList)) ∧
    countSubmits (handle_tv [ (("action".toList), JValue.str ("BUY".toList)),
        (("symbol".toList), JValue.str ("BTCUSDT".toList)),
        (("qty".toList), JValue.num (-1)) ] oracleAllOk).events = 0 :=
  (c9_qty_validation
    [ (("action".toList), JValue.str ("BUY".toList)),
      (("symbol".toList), JValue.str ("BTCUSDT".toList)),
      (("qty".toList), JValue.num (-1)) ] oracleAllOk
    rfl (by decide) rfl (by decide) (by decide)).2.2.2.2
    (-1) rfl (by norm_num) rfl
